import Mathlib

/-!
Verification of the Chatify conversation relay and attachment pipeline.

The development shallowly embeds the two source modules:
* `src/app/app/api/chat/route.ts` — the relay endpoint (`POST`);
* `src/app/app/page.tsx` — the conversation composer (attachment staging,
  send cycle, transport error handling).

JavaScript string primitives (`trim`, `slice`, `includes`, `startsWith`)
are re-implemented over `List Char` so that every definition evaluates
inside the kernel. Asynchronous effects (multipart parsing, `JSON.parse`,
`fetch`, `FileReader`) are modelled by explicit outcome types: each place
the source can observe a library success or failure becomes a constructor,
and thrown `Error` messages are carried as strings.
-/

/-! ## JavaScript string primitives -/

/-- Whitespace characters relevant to `String.prototype.trim` for the
ASCII inputs this development evaluates. -/
def isJsSpace (c : Char) : Bool :=
  c = ' ' || c = '\t' || c = '\n' || c = '\r'

/-- Model of `s.trim()`: strip leading and trailing whitespace. -/
def jsTrim (s : String) : String :=
  String.mk (((s.data.dropWhile isJsSpace).reverse.dropWhile isJsSpace).reverse)

/-- Model of `s.slice(0, n)`: the first `n` characters of `s`. -/
def jsSlice (n : Nat) (s : String) : String :=
  String.mk (s.data.take n)

/-- Does the second list start with the first? -/
def startsWithChars : List Char → List Char → Bool
  | [], _ => true
  | _ :: _, [] => false
  | c :: cs, d :: ds => c = d && startsWithChars cs ds

/-- Does `needle` occur as a contiguous run inside the second list? -/
def containsSeq (needle : List Char) : List Char → Bool
  | [] => startsWithChars needle []
  | c :: cs => startsWithChars needle (c :: cs) || containsSeq needle cs

/-- Model of `haystack.includes(needle)`. -/
def jsIncludes (haystack needle : String) : Bool :=
  containsSeq needle.data haystack.data

/-- Model of `s.startsWith(p)`. -/
def jsStartsWith (s p : String) : Bool :=
  startsWithChars p.data s.data

/-! ## Shared wire data model (route.ts lines 3-7) -/

/-- Message roles accepted by the relay (`"user" | "assistant"`). -/
inductive Role
  | user
  | assistant
deriving DecidableEq, Repr

/-- Attachment metadata carried inside the serialized transcript
(`attachments?: (name; type)` entries of `RequestMessage`). -/
structure AttachmentMeta where
  name : String
  type : String
deriving DecidableEq, Repr

/-- One transcript entry as the relay receives it (`RequestMessage` in
route.ts lines 3-7). -/
structure RequestMessage where
  role : Role
  content : String
  attachments : Option (List AttachmentMeta) := none
deriving DecidableEq, Repr

/-! ## Relay endpoint model (route.ts) -/

/-- The fixed system prompt (route.ts lines 9-13). -/
def SYSTEM_PROMPT : String :=
  "You are Chatify, an upbeat and deeply practical AI guide. You:\n- treat every question as a real-life problem to solve with empathy.\n- break answers into clear, actionable steps and highlight pros/cons when useful.\n- keep explanations concise but thorough, and propose creative ideas when helpful.\n- reference any shared files or images to inform your answer. If details are limited, infer possibilities and state assumptions."

/-- Locally synthesized fallback reply (`fallbackAssistant`, route.ts
lines 15-16). -/
def fallbackAssistant (latestUserMessage attachmentSummary : String) : String :=
  "I couldn't reach my reasoning engine just now, but here's a quick take based on what you shared:\n\n"
    ++ latestUserMessage ++ "\n\n" ++ attachmentSummary
    ++ "\n\nLet's retry in a moment if you need a deeper dive."

/-- Server-side view of one decoded file part (`AttachmentDetail`,
route.ts lines 28-33). -/
structure AttachmentDetail where
  name : String
  type : String
  bytes : Nat
  preview : String
deriving DecidableEq, Repr

/-- Model of `Math.max(1, Math.round(bytes / 1024))` on a natural byte
count: `Math.round` on an exact dyadic quotient is floor of the quotient
plus one half. -/
def roundKB (bytes : Nat) : Nat :=
  max 1 ((bytes + 512) / 1024)

/-- One bullet line of the attachment summary (route.ts line 24). -/
def bulletFor (item : AttachmentDetail) : String :=
  "• " ++ item.name ++ " (" ++ item.type ++ ", ~" ++ toString (roundKB item.bytes) ++ "KB)"
    ++ item.preview

/-- The attachment summary block (`buildAttachmentSummary`, route.ts
lines 18-26). -/
def buildAttachmentSummary (items : List AttachmentDetail) : String :=
  if items.length = 0 then
    "No attachments were included."
  else
    "Attachments provided:\n" ++ String.intercalate "\n" (items.map bulletFor)

/-- One file part of the multipart body as the relay reads it: name,
declared MIME type, buffer length, and the base64 rendering of the buffer
(`Buffer.toString("base64")` is treated as an attribute of the part). -/
structure FilePart where
  name : String
  type : String
  bytes : Nat
  base64 : String
deriving DecidableEq, Repr

/-- The preview snippet of a file part (route.ts lines 61-63): only
image-typed parts get a truncated inline preview. -/
def snippetFor (entry : FilePart) : String :=
  if jsStartsWith entry.type "image/" then
    "\n   • Visual preview (base64, truncated): " ++ jsSlice 800 entry.base64 ++ "..."
  else ""

/-- Decoding one file part into an `AttachmentDetail` (route.ts lines
59-70); an empty declared type falls back to the octet-stream default. -/
def toDetail (entry : FilePart) : AttachmentDetail :=
  { name := entry.name
    type := if entry.type = "" then "application/octet-stream" else entry.type
    bytes := entry.bytes
    preview := snippetFor entry }

/-- Content of the latest user-role message (route.ts line 73):
`[...messages].reverse().find(m => m.role === "user")?.content ?? ""`. -/
def latestUserContent (messages : List RequestMessage) : String :=
  match messages.reverse.find? (fun message => message.role = Role.user) with
  | some message => message.content
  | none => ""

/-- Enrichment of the transcript (route.ts lines 81-89): the final entry,
when it is user-role and at least one attachment arrived, gets the summary
appended to its content; every other entry is returned as is. -/
def enrichedMessages (messages : List RequestMessage) (attachments : List AttachmentDetail) :
    List RequestMessage :=
  messages.mapIdx (fun index message =>
    if message.role = Role.user ∧ index = messages.length - 1 ∧ attachments.length ≠ 0 then
      { role := message.role
        content := message.content ++ "\n\n" ++ buildAttachmentSummary attachments }
    else message)

/-- One message of the upstream JSON payload (route.ts lines 101-107):
role rendered as a string next to the content. -/
structure WireMessage where
  role : String
  content : String
deriving DecidableEq, Repr

/-- Rendering of a `Role` on the wire. -/
def roleString : Role → String
  | Role.user => "user"
  | Role.assistant => "assistant"

/-- The message list sent to the completion service: the system prompt
followed by the enriched transcript projected to role and content. -/
def upstreamWire (messages : List RequestMessage) (attachments : List AttachmentDetail) :
    List WireMessage :=
  { role := "system", content := SYSTEM_PROMPT }
    :: (enrichedMessages messages attachments).map
        (fun message => { role := roleString message.role, content := message.content })

/-- The upstream completion body along the optional chain
`completion?.choices?.[0]?.message?.content` (route.ts line 126): each
level may be absent. -/
structure UpstreamMessage where
  content : Option String
deriving DecidableEq, Repr

/-- One choice of the upstream completion body. -/
structure UpstreamChoice where
  message : Option UpstreamMessage
deriving DecidableEq, Repr

/-- The parsed upstream completion body. -/
structure UpstreamBody where
  choices : Option (List UpstreamChoice)
deriving DecidableEq, Repr

/-- Extraction of the reply text (route.ts lines 125-126): traverse the
optional chain and trim; any absent level yields nothing. -/
def extractReply (completion : UpstreamBody) : Option String :=
  match completion.choices with
  | none => none
  | some choices =>
    match choices.head? with
    | none => none
    | some choice =>
      match choice.message with
      | none => none
      | some message =>
        match message.content with
        | none => none
        | some content => some (jsTrim content)

/-- Behaviour of the configured upstream service on the one call the relay
makes, as the relay can observe it: the fetch may reject, return a non-OK
status with an error body, return OK with a body that fails JSON parsing,
or return OK with a parsed completion body. -/
inductive UpstreamResult
  | fetchError (message : String)
  | httpError (status : Nat) (body : String)
  | okInvalidJson (message : String)
  | ok (completion : UpstreamBody)
deriving DecidableEq, Repr

/-- Outcome of reading the `messages` form field (route.ts lines 43-54 and
line 73). `notText` covers an absent field and a file-valued field (both
fail `typeof rawMessages === "string"`); `invalidJson` is a `JSON.parse`
throw; `nonIterableJson` is a parse that succeeds on JSON that is not
iterable — there the later spread `[...messages]` throws a `TypeError`
whose message is carried; `parsed` is a well-formed transcript array. -/
inductive MessagesFieldOutcome
  | notText
  | invalidJson
  | nonIterableJson (message : String)
  | parsed (messages : List RequestMessage)
deriving DecidableEq, Repr

/-- Outcome of `request.formData()` (route.ts line 42): either the body
fails to parse as multipart (a throw, message carried), or it yields the
`messages` field outcome plus the file parts in arrival order. -/
inductive BodyOutcome
  | formDataError (message : String)
  | formData (messagesField : MessagesFieldOutcome) (files : List FilePart)
deriving DecidableEq, Repr

/-- One inbound relay request: the `content-type` header (`""` when the
header is absent, route.ts line 37) and the body outcome. -/
structure RelayRequest where
  contentType : String
  body : BodyOutcome
deriving DecidableEq, Repr

/-- What the relay produces for one request: the HTTP status, the `reply`
string of the JSON body, and — when a `fetch` to the completion service
was attempted — the message payload it carried. -/
structure RelayOutcome where
  status : Nat
  reply : String
  sent : Option (List WireMessage)
deriving DecidableEq, Repr

/-- Reply text of the top-level catch (route.ts lines 130-137), with the
message of the caught `Error`. -/
def troubleReply (message : String) : String :=
  "I had trouble completing that request (" ++ message ++ "). Let's try again in a moment."

/-- The relay handler (`POST`, route.ts lines 35-139). `apiKey` is
`process.env.OPENAI_API_KEY` (absent or configured); `upstream` is how the
completion service would answer the one call. Throws inside the `try`
surface as `troubleReply` with status 200 through the top-level catch. -/
def POST (apiKey : Option String) (upstream : UpstreamResult) (request : RelayRequest) :
    RelayOutcome :=
  if jsIncludes request.contentType "multipart/form-data" = false then
    { status := 400, reply := "Invalid payload format.", sent := none }
  else
    match request.body with
    | BodyOutcome.formDataError message =>
      { status := 200, reply := troubleReply message, sent := none }
    | BodyOutcome.formData messagesField files =>
      match messagesField with
      | MessagesFieldOutcome.notText =>
        { status := 400, reply := "Missing conversation context.", sent := none }
      | MessagesFieldOutcome.invalidJson =>
        { status := 400, reply := "The conversation payload could not be parsed.", sent := none }
      | MessagesFieldOutcome.nonIterableJson message =>
        { status := 200, reply := troubleReply message, sent := none }
      | MessagesFieldOutcome.parsed messages =>
        let attachments := files.map toDetail
        let latestUserMessage := latestUserContent messages
        let attachmentSummary := buildAttachmentSummary attachments
        match apiKey with
        | none =>
          { status := 200
            reply := fallbackAssistant latestUserMessage attachmentSummary
            sent := none }
        | some _ =>
          let wire := upstreamWire messages attachments
          match upstream with
          | UpstreamResult.fetchError message =>
            { status := 200, reply := troubleReply message, sent := some wire }
          | UpstreamResult.httpError _ body =>
            { status := 200
              reply := fallbackAssistant latestUserMessage
                (attachmentSummary ++ "\n(Reason: " ++ jsSlice 200 body ++ ")")
              sent := some wire }
          | UpstreamResult.okInvalidJson message =>
            { status := 200, reply := troubleReply message, sent := some wire }
          | UpstreamResult.ok completion =>
            { status := 200
              reply := (extractReply completion).getD
                (fallbackAssistant latestUserMessage attachmentSummary)
              sent := some wire }

/-! ## Conversation composer model (page.tsx) -/

/-- A file the user selected: its name, declared MIME type, whether the
browser can read its bytes, and the data URL `FileReader` would produce
when it can. -/
structure DraftFile where
  name : String
  type : String
  readable : Bool
  dataUrl : String
deriving DecidableEq, Repr

/-- A staged attachment (`AttachmentDraft`, page.tsx lines 6-10); the
object-URL preview handle is environment-allocated and not modelled. -/
structure AttachmentDraft where
  id : String
  file : DraftFile
deriving DecidableEq, Repr

/-- The staging cap (page.tsx line 36). -/
def MAX_ATTACHMENTS : Nat := 4

/-- Staging files (`handleFileChange`, page.tsx lines 155-175): no-op on
an empty selection or a full tray; otherwise append the files that fit the
remaining slots, each under a fresh id from `gen`. -/
def handleFileChange (gen : Nat → String) (files : List DraftFile)
    (prev : List AttachmentDraft) : List AttachmentDraft :=
  if files.length = 0 then prev
  else
    let availableSlots : Int := (MAX_ATTACHMENTS : Int) - (prev.length : Int)
    if availableSlots ≤ 0 then prev
    else
      prev ++ (files.take availableSlots.toNat).mapIdx
        (fun index file => { id := gen index, file := file })

/-- Removing a staged attachment (`removeAttachment`, page.tsx lines
177-186): keep the drafts whose id differs. -/
def removeAttachment (id : String) (prev : List AttachmentDraft) : List AttachmentDraft :=
  prev.filter (fun item => item.id ≠ id)

/-- Model of `fileToDataUrl` (page.tsx lines 38-44): the `FileReader`
either resolves with the data URL or rejects. -/
def fileToDataUrl (file : DraftFile) : Option String :=
  if file.readable then some file.dataUrl else none

/-- A sent attachment (`PersistedAttachment`, page.tsx lines 12-17). -/
structure PersistedAttachment where
  id : String
  name : String
  type : String
  url : String
deriving DecidableEq, Repr

/-- Conversion of one staged draft at send time (page.tsx lines 206-213):
succeeds exactly when the file reads. -/
def convertDraft (item : AttachmentDraft) : Option PersistedAttachment :=
  match fileToDataUrl item.file with
  | some url =>
    some
      { id := item.id
        name := item.file.name
        type := if item.file.type = "" then "application/octet-stream" else item.file.type
        url := url }
  | none => none

/-- One transcript entry on the client (`ChatMessage`, page.tsx lines
21-27). -/
structure ChatMessage where
  id : String
  role : Role
  content : String
  createdAt : Nat
  attachments : Option (List PersistedAttachment) := none
deriving DecidableEq, Repr

/-- Serialization of the transcript for the relay
(`serializeMessagesForRequest`, page.tsx lines 188-197): only role,
content and attachment name/type metadata travel in the JSON field. -/
def serializeMessagesForRequest (conversation : List ChatMessage) : List RequestMessage :=
  conversation.map (fun message =>
    { role := message.role
      content := message.content
      attachments := message.attachments.map (fun items =>
        items.map (fun attachment =>
          { name := attachment.name, type := attachment.type })) })

/-- Everything one completed send assembles before the transport call
(`handleSend`, page.tsx lines 199-238): the appended user message, the new
conversation, the serialized `messages` field, and the file parts. -/
structure SendAction where
  userMessage : ChatMessage
  nextConversation : List ChatMessage
  formMessages : List RequestMessage
  formFiles : List DraftFile
deriving DecidableEq, Repr

/-- The send cycle up to the transport call (`handleSend`, page.tsx lines
199-238): `none` is the early return on an empty input with nothing
staged; otherwise the staged drafts are snapshotted, converted with
failures dropped, and the user turn is appended. `genId` supplies the
`generateId()` value and `now` the `Date.now()` stamp. -/
def handleSend (genId : String) (now : Nat) (input : String)
    (pendingAttachments : List AttachmentDraft) (messages : List ChatMessage) :
    Option SendAction :=
  if jsTrim input = "" ∧ pendingAttachments.length = 0 then none
  else
    let attachmentsSnapshot := pendingAttachments
    let attachmentSnapshots := attachmentsSnapshot.filterMap convertDraft
    let userMessage : ChatMessage :=
      { id := genId
        role := Role.user
        content := jsTrim input
        createdAt := now
        attachments := some attachmentSnapshots }
    let nextConversation := messages ++ [userMessage]
    some
      { userMessage := userMessage
        nextConversation := nextConversation
        formMessages := serializeMessagesForRequest nextConversation
        formFiles := attachmentsSnapshot.map (fun item => item.file) }

/-- How the transport call of one send concludes, as `handleSend` observes
it (page.tsx lines 240-275): the fetch may reject, the response may be
non-OK (its status and body are never read), the response may be OK with a
body whose JSON parsing throws, or OK with a parsed body whose `reply`
field is a string or absent. -/
inductive TransportOutcome
  | networkError (message : String)
  | notOk (status : Nat) (body : String)
  | okBadJson (message : String)
  | ok (reply : Option String)
deriving DecidableEq, Repr

/-- Content of the assistant message the composer appends after the
transport call (page.tsx lines 246-272): a non-OK response throws
`Error("Failed to reach Chatify")` before the body is read, and every
caught `Error` is rendered through the issue template. -/
def assistantContent : TransportOutcome → String
  | TransportOutcome.networkError message =>
    "I ran into an issue: " ++ message ++ ". Please try again."
  | TransportOutcome.notOk _ _ =>
    "I ran into an issue: Failed to reach Chatify. Please try again."
  | TransportOutcome.okBadJson message =>
    "I ran into an issue: " ++ message ++ ". Please try again."
  | TransportOutcome.ok reply =>
    reply.getD "I'm here, but I couldn't understand the request just yet."

/-- The staging trays reachable from the initial empty tray through the
composer's operations: staging files, removing a draft, and the clearing
a send performs (page.tsx line 229). -/
inductive StagingReachable : List AttachmentDraft → Prop
  | init : StagingReachable []
  | stage (gen : Nat → String) (files : List DraftFile) {prev : List AttachmentDraft} :
      StagingReachable prev → StagingReachable (handleFileChange gen files prev)
  | unstage (id : String) {prev : List AttachmentDraft} :
      StagingReachable prev → StagingReachable (removeAttachment id prev)
  | sent {prev : List AttachmentDraft} : StagingReachable prev → StagingReachable []

/-! ## Theorems -/

/-- C6: the attachment summary is a deterministic function of the
attachment list; on an empty list it is exactly
"No attachments were included.", and on a non-empty list it is the header
followed by one bullet per attachment in arrival order. -/
theorem C6_attachment_summary (items : List AttachmentDetail) (h : items ≠ []) :
    buildAttachmentSummary [] = "No attachments were included."
    ∧ buildAttachmentSummary items
        = "Attachments provided:\n" ++ String.intercalate "\n" (items.map bulletFor)
    ∧ (items.map bulletFor).length = items.length
    ∧ (∀ other : List AttachmentDetail, other = items →
        buildAttachmentSummary other = buildAttachmentSummary items) := by
  refine ⟨rfl, ?_, ?_, ?_⟩
  · unfold buildAttachmentSummary
    rw [if_neg]
    simpa using h
  · exact List.length_map items bulletFor
  · intro other hother
    rw [hother]

/-- Witness for C6 at a single text attachment. -/
theorem C6_attachment_summary_witness :
    ([{ name := "notes.txt", type := "text/plain", bytes := 2048, preview := "" }] :
        List AttachmentDetail) ≠ []
    ∧ buildAttachmentSummary
          [{ name := "notes.txt", type := "text/plain", bytes := 2048, preview := "" }]
        = "Attachments provided:\n"
          ++ String.intercalate "\n"
            (List.map bulletFor
              [{ name := "notes.txt", type := "text/plain", bytes := 2048, preview := "" }]) :=
  ⟨by decide,
    (C6_attachment_summary
      [{ name := "notes.txt", type := "text/plain", bytes := 2048, preview := "" }]
      (by decide)).2.1⟩

/-- C2: with no credential configured, a structurally valid request gets a
200 response whose reply is the locally synthesized fallback built from
the latest user text and the attachment summary, no fetch is attempted,
and the reply depends only on the latest user text and the decoded
attachment details. -/
theorem C2_no_credential_fallback (upstream : UpstreamResult) (contentType : String)
    (messages : List RequestMessage) (files : List FilePart)
    (h : jsIncludes contentType "multipart/form-data" = true) :
    POST none upstream
        { contentType := contentType
          body := BodyOutcome.formData (MessagesFieldOutcome.parsed messages) files }
      = { status := 200
          reply := fallbackAssistant (latestUserContent messages)
            (buildAttachmentSummary (files.map toDetail))
          sent := none }
    ∧ (∀ (upstream2 : UpstreamResult) (contentType2 : String)
          (messages2 : List RequestMessage) (files2 : List FilePart),
        jsIncludes contentType2 "multipart/form-data" = true →
        latestUserContent messages2 = latestUserContent messages →
        files2.map toDetail = files.map toDetail →
        (POST none upstream2
            { contentType := contentType2
              body := BodyOutcome.formData (MessagesFieldOutcome.parsed messages2) files2 }).reply
          = (POST none upstream
              { contentType := contentType
                body := BodyOutcome.formData (MessagesFieldOutcome.parsed messages) files }).reply) := by
  constructor
  · unfold POST
    simp [h]
  · intro upstream2 contentType2 messages2 files2 h2 hlatest hfiles
    unfold POST
    simp [h, h2, hlatest, hfiles]

/-- Witness for C2: end-to-end scenario 1 — "Hello" with no attachments
and no credential. -/
theorem C2_no_credential_fallback_witness :
    POST none (UpstreamResult.ok { choices := none })
        { contentType := "multipart/form-data; boundary=x"
          body := BodyOutcome.formData
            (MessagesFieldOutcome.parsed [{ role := Role.user, content := "Hello" }]) [] }
      = { status := 200
          reply := fallbackAssistant
            (latestUserContent [{ role := Role.user, content := "Hello" }])
            (buildAttachmentSummary (List.map toDetail []))
          sent := none } :=
  (C2_no_credential_fallback (UpstreamResult.ok { choices := none })
    "multipart/form-data; boundary=x" [{ role := Role.user, content := "Hello" }] []
    (by decide)).1

/-- C3: when the upstream call comes back with a non-success status, the
relay still answers 200 and the reply is the fallback annotated with the
first 200 characters of the upstream error body. -/
theorem C3_upstream_error_absorbed (apiKey : String) (upstream_status : Nat)
    (upstream_body : String) (contentType : String) (messages : List RequestMessage)
    (files : List FilePart)
    (h : jsIncludes contentType "multipart/form-data" = true) :
    POST (some apiKey) (UpstreamResult.httpError upstream_status upstream_body)
        { contentType := contentType
          body := BodyOutcome.formData (MessagesFieldOutcome.parsed messages) files }
      = { status := 200
          reply := fallbackAssistant (latestUserContent messages)
            (buildAttachmentSummary (files.map toDetail)
              ++ "\n(Reason: " ++ jsSlice 200 upstream_body ++ ")")
          sent := some (upstreamWire messages (files.map toDetail)) }
    ∧ (jsSlice 200 upstream_body).length ≤ 200
    ∧ (jsSlice 200 upstream_body).data = upstream_body.data.take 200 := by
  refine ⟨?_, ?_, rfl⟩
  · unfold POST
    simp [h]
  · show (upstream_body.data.take 200).length ≤ 200
    exact List.length_take_le 200 upstream_body.data

/-- Witness for C3: upstream HTTP 500 with a long error body. -/
theorem C3_upstream_error_absorbed_witness :
    POST (some "sk-test") (UpstreamResult.httpError 500 "boom")
        { contentType := "multipart/form-data"
          body := BodyOutcome.formData
            (MessagesFieldOutcome.parsed [{ role := Role.user, content := "Hi" }]) [] }
      = { status := 200
          reply := fallbackAssistant
            (latestUserContent [{ role := Role.user, content := "Hi" }])
            (buildAttachmentSummary (List.map toDetail [])
              ++ "\n(Reason: " ++ jsSlice 200 "boom" ++ ")")
          sent := some (upstreamWire [{ role := Role.user, content := "Hi" }]
            (List.map toDetail [])) } :=
  (C3_upstream_error_absorbed "sk-test" 500 "boom" "multipart/form-data"
    [{ role := Role.user, content := "Hi" }] [] (by decide)).1

/-- C5: on a successful upstream call the relay answers with exactly the
trimmed text of the first completion when the optional chain yields it,
and with the fallback reply when the chain yields nothing. -/
theorem C5_reply_extraction (apiKey : String) (completion : UpstreamBody)
    (contentType : String) (messages : List RequestMessage) (files : List FilePart)
    (h : jsIncludes contentType "multipart/form-data" = true) :
    (∀ replyText, extractReply completion = some replyText →
      POST (some apiKey) (UpstreamResult.ok completion)
          { contentType := contentType
            body := BodyOutcome.formData (MessagesFieldOutcome.parsed messages) files }
        = { status := 200, reply := replyText
            sent := some (upstreamWire messages (files.map toDetail)) })
    ∧ (extractReply completion = none →
      POST (some apiKey) (UpstreamResult.ok completion)
          { contentType := contentType
            body := BodyOutcome.formData (MessagesFieldOutcome.parsed messages) files }
        = { status := 200
            reply := fallbackAssistant (latestUserContent messages)
              (buildAttachmentSummary (files.map toDetail))
            sent := some (upstreamWire messages (files.map toDetail)) })
    ∧ (∀ content rest,
        completion = { choices := some ({ message := some { content := some content } } :: rest) } →
        extractReply completion = some (jsTrim content)) := by
  refine ⟨?_, ?_, ?_⟩
  · intro replyText hx
    unfold POST
    simp [h, hx]
  · intro hx
    unfold POST
    simp [h, hx]
  · intro content rest hc
    subst hc
    rfl

/-- Witness for C5: a completion body carrying padded text is answered
with exactly the trimmed text. -/
theorem C5_reply_extraction_witness :
    POST (some "sk-test") (UpstreamResult.ok
        { choices := some [{ message := some { content := some "  Sure thing.  " } }] })
        { contentType := "multipart/form-data"
          body := BodyOutcome.formData
            (MessagesFieldOutcome.parsed [{ role := Role.user, content := "Hi" }]) [] }
      = { status := 200, reply := "Sure thing."
          sent := some (upstreamWire [{ role := Role.user, content := "Hi" }]
            (List.map toDetail [])) } := by
  have h := (C5_reply_extraction "sk-test"
    { choices := some [{ message := some { content := some "  Sure thing.  " } }] }
    "multipart/form-data" [{ role := Role.user, content := "Hi" }] [] (by decide)).1
    "Sure thing." (by decide)
  exact h

/-- Helper: an indexed map whose function fixes every element of the list
leaves the list unchanged. -/
theorem mapIdx_id_of_get {α : Type} (l : List α) (f : Nat → α → α)
    (h : ∀ i (hi : i < l.length), f i (l.get ⟨i, hi⟩) = l.get ⟨i, hi⟩) :
    List.mapIdx f l = l := by
  apply List.ext_getElem
  · exact List.length_mapIdx
  · intro n h1 h2
    rw [List.getElem_mapIdx]
    exact h n h2

/-- Helper: splitting the enrichment map at the final transcript entry.
Only the final entry can satisfy the index condition, so the head of the
transcript comes back untouched. -/
theorem enrichedMessages_concat (init : List RequestMessage) (lastMessage : RequestMessage)
    (attachments : List AttachmentDetail) :
    enrichedMessages (init ++ [lastMessage]) attachments
      = init ++ [if lastMessage.role = Role.user ∧ attachments.length ≠ 0 then
          { role := lastMessage.role
            content := lastMessage.content ++ "\n\n" ++ buildAttachmentSummary attachments }
          else lastMessage] := by
  unfold enrichedMessages
  rw [List.mapIdx_append]
  congr 1
  · apply mapIdx_id_of_get
    intro i hi
    rw [if_neg]
    rintro ⟨-, hidx, -⟩
    rw [List.length_append, List.length_singleton] at hidx
    omega
  · show List.mapIdx _ [lastMessage] = _
    rw [List.mapIdx_cons]
    show [ite _ _ _] = [ite _ _ _]
    congr 1
    rw [List.length_append, List.length_singleton]
    by_cases hrole : lastMessage.role = Role.user
    · by_cases hlen : attachments.length ≠ 0
      · rw [if_pos ⟨hrole, by omega, hlen⟩, if_pos ⟨hrole, hlen⟩]
      · rw [if_neg (fun hc => hlen hc.2.2), if_neg (fun hc => hlen hc.2)]
    · rw [if_neg (fun hc => hrole hc.1), if_neg (fun hc => hrole hc.1)]

/-- C1: the summary is appended only to the content of the final
transcript entry when it is user-role (which makes it the latest user-role
message) and attachments arrived; with no attachments, or with a final
entry that is not user-role, every message passes through unchanged, and
the upstream payload is the system prompt followed by exactly the enriched
transcript. -/
theorem C1_enrichment_targets_latest_user :
    (∀ (messages : List RequestMessage) (attachments : List AttachmentDetail),
        attachments = [] → enrichedMessages messages attachments = messages)
    ∧ (∀ (init : List RequestMessage) (lastMessage : RequestMessage)
          (attachments : List AttachmentDetail),
        attachments ≠ [] → lastMessage.role = Role.user →
        enrichedMessages (init ++ [lastMessage]) attachments
          = init ++ [{ role := Role.user
                       content := lastMessage.content ++ "\n\n"
                         ++ buildAttachmentSummary attachments }])
    ∧ (∀ (init : List RequestMessage) (lastMessage : RequestMessage)
          (attachments : List AttachmentDetail),
        lastMessage.role ≠ Role.user →
        enrichedMessages (init ++ [lastMessage]) attachments = init ++ [lastMessage])
    ∧ (∀ (a : AttachmentDetail) (cA cB cC : String),
        enrichedMessages
            [{ role := Role.user, content := cA }, { role := Role.assistant, content := cB },
             { role := Role.user, content := cC }] [a]
          = [{ role := Role.user, content := cA }, { role := Role.assistant, content := cB },
             { role := Role.user, content := cC ++ "\n\n" ++ buildAttachmentSummary [a] }])
    ∧ (∀ (messages : List RequestMessage) (attachments : List AttachmentDetail),
        upstreamWire messages attachments
          = { role := "system", content := SYSTEM_PROMPT }
            :: (enrichedMessages messages attachments).map
                (fun message => { role := roleString message.role
                                  content := message.content })) := by
  refine ⟨?_, ?_, ?_, ?_, fun _ _ => rfl⟩
  · intro messages attachments hempty
    subst hempty
    apply mapIdx_id_of_get
    intro i hi
    rw [if_neg]
    rintro ⟨-, -, hlen⟩
    exact hlen rfl
  · intro init lastMessage attachments hatt hrole
    have hlen : attachments.length ≠ 0 := fun h0 => hatt (List.length_eq_zero.mp h0)
    rw [enrichedMessages_concat, if_pos ⟨hrole, hlen⟩, hrole]
  · intro init lastMessage attachments hrole
    rw [enrichedMessages_concat, if_neg (fun hc => hrole hc.1)]
  · intro a cA cB cC
    rfl

/-- Witness for C1: each enrichment clause at a concrete transcript. -/
theorem C1_enrichment_targets_latest_user_witness :
    enrichedMessages [{ role := Role.user, content := "A" }] []
        = [{ role := Role.user, content := "A" }]
    ∧ enrichedMessages [{ role := Role.user, content := "C" }]
          [{ name := "pic.png", type := "image/png", bytes := 1024, preview := "" }]
        = [{ role := Role.user
             content := "C" ++ "\n\n" ++ buildAttachmentSummary
               [{ name := "pic.png", type := "image/png", bytes := 1024, preview := "" }] }]
    ∧ enrichedMessages [{ role := Role.assistant, content := "B" }]
          [{ name := "pic.png", type := "image/png", bytes := 1024, preview := "" }]
        = [{ role := Role.assistant, content := "B" }]
    ∧ enrichedMessages
          [{ role := Role.user, content := "A" }, { role := Role.assistant, content := "B" },
           { role := Role.user, content := "C" }]
          [{ name := "pic.png", type := "image/png", bytes := 1024, preview := "" }]
        = [{ role := Role.user, content := "A" }, { role := Role.assistant, content := "B" },
           { role := Role.user
             content := "C" ++ "\n\n" ++ buildAttachmentSummary
               [{ name := "pic.png", type := "image/png", bytes := 1024, preview := "" }] }] :=
  ⟨C1_enrichment_targets_latest_user.1 [{ role := Role.user, content := "A" }] [] rfl,
    C1_enrichment_targets_latest_user.2.1 [] { role := Role.user, content := "C" }
      [{ name := "pic.png", type := "image/png", bytes := 1024, preview := "" }]
      (by decide) rfl,
    C1_enrichment_targets_latest_user.2.2.1 [] { role := Role.assistant, content := "B" }
      [{ name := "pic.png", type := "image/png", bytes := 1024, preview := "" }]
      (by decide),
    C1_enrichment_targets_latest_user.2.2.2.1
      { name := "pic.png", type := "image/png", bytes := 1024, preview := "" } "A" "B" "C"⟩

/-- C4 (amended): a 400 arises exactly for a non-multipart content type, a
missing or non-text `messages` field, or a `messages` field that fails
JSON parsing; those paths attempt no upstream call and carry a non-empty
reply. Valid JSON of the wrong shape is not part of the 400 set. -/
theorem C4_structural_validation (apiKey : Option String) (upstream : UpstreamResult)
    (request : RelayRequest) :
    ((POST apiKey upstream request).status = 400 ↔
      jsIncludes request.contentType "multipart/form-data" = false
      ∨ (∃ files, request.body = BodyOutcome.formData MessagesFieldOutcome.notText files)
      ∨ (∃ files, request.body = BodyOutcome.formData MessagesFieldOutcome.invalidJson files))
    ∧ ((POST apiKey upstream request).status = 400 →
        (POST apiKey upstream request).sent = none
        ∧ (POST apiKey upstream request).reply ≠ "") := by
  obtain ⟨contentType, body⟩ := request
  cases hct : jsIncludes contentType "multipart/form-data"
  case false =>
    refine ⟨⟨fun _ => Or.inl rfl, fun _ => by simp [POST, hct]⟩, fun _ => ?_⟩
    refine ⟨by simp [POST, hct], ?_⟩
    simp [POST, hct]
  case true =>
    have hrest : ∀ hs : (POST apiKey upstream ⟨contentType, body⟩).status = 400,
        (POST apiKey upstream ⟨contentType, body⟩).sent = none
        ∧ (POST apiKey upstream ⟨contentType, body⟩).reply ≠ "" := by
      cases body with
      | formDataError message => simp [POST, hct]
      | formData mf files =>
        cases mf with
        | notText => simp [POST, hct]
        | invalidJson => simp [POST, hct]
        | nonIterableJson message => simp [POST, hct]
        | parsed messages =>
          cases apiKey with
          | none => simp [POST, hct]
          | some key => cases upstream <;> simp [POST, hct]
    refine ⟨⟨fun hs => ?_, fun hs => ?_⟩, hrest⟩
    · cases body with
      | formDataError message => simp [POST, hct] at hs
      | formData mf files =>
        cases mf with
        | notText => exact Or.inr (Or.inl ⟨files, rfl⟩)
        | invalidJson => exact Or.inr (Or.inr ⟨files, rfl⟩)
        | nonIterableJson message => simp [POST, hct] at hs
        | parsed messages =>
          cases apiKey with
          | none => simp [POST, hct] at hs
          | some key => cases upstream <;> simp [POST, hct] at hs
    · rcases hs with hs | ⟨files, hs⟩ | ⟨files, hs⟩
      · exact Bool.noConfusion hs
      · cases hs
        simp [POST, hct]
      · cases hs
        simp [POST, hct]

/-- Counterexample for C4 as stated: the `messages` field "\x7b\x7d" is
valid JSON (a plain object) but not the expected array-of-records
structure, so the claim demands a 400; in the code `JSON.parse` succeeds,
the later spread `[...messages]` throws a `TypeError` (a plain object is
not iterable), and the top-level catch answers with status 200. -/
theorem C4_structural_validation_counterexample :
    (POST none (UpstreamResult.ok { choices := none })
        { contentType := "multipart/form-data; boundary=x"
          body := BodyOutcome.formData
            (MessagesFieldOutcome.nonIterableJson "messages is not iterable") [] }).status
      = 200
    ∧ (200 : Nat) ≠ 400 := by
  constructor
  · rfl
  · decide

/-- Witness for C4 (amended): a text/plain request is rejected with 400,
no upstream call, and a non-empty reply. -/
theorem C4_structural_validation_witness :
    (POST none (UpstreamResult.ok { choices := none })
        { contentType := "text/plain"
          body := BodyOutcome.formData (MessagesFieldOutcome.parsed []) [] }).status = 400
    ∧ (POST none (UpstreamResult.ok { choices := none })
        { contentType := "text/plain"
          body := BodyOutcome.formData (MessagesFieldOutcome.parsed []) [] }).sent = none
    ∧ (POST none (UpstreamResult.ok { choices := none })
        { contentType := "text/plain"
          body := BodyOutcome.formData (MessagesFieldOutcome.parsed []) [] }).reply ≠ "" := by
  have h := C4_structural_validation none (UpstreamResult.ok { choices := none })
    { contentType := "text/plain"
      body := BodyOutcome.formData (MessagesFieldOutcome.parsed []) [] }
  have hs := h.1.mpr (Or.inl (by decide))
  exact ⟨hs, (h.2 hs).1, (h.2 hs).2⟩

/-- C9: the relay is total — every request gets a response whose status is
200 or 400; a 400 arises only from the structural validation set, so every
other path is a 200 carrying a reply string; and a body that throws while
parsing surfaces as the top-level catch payload describing the failure. -/
theorem C9_relay_totality (apiKey : Option String) (upstream : UpstreamResult)
    (request : RelayRequest) :
    ((POST apiKey upstream request).status = 200 ∨ (POST apiKey upstream request).status = 400)
    ∧ (¬(jsIncludes request.contentType "multipart/form-data" = false
          ∨ (∃ files, request.body = BodyOutcome.formData MessagesFieldOutcome.notText files)
          ∨ (∃ files, request.body = BodyOutcome.formData MessagesFieldOutcome.invalidJson files))
        → (POST apiKey upstream request).status = 200)
    ∧ (∀ message, jsIncludes request.contentType "multipart/form-data" = true →
        request.body = BodyOutcome.formDataError message →
        POST apiKey upstream request
          = { status := 200, reply := troubleReply message, sent := none }) := by
  obtain ⟨contentType, body⟩ := request
  refine ⟨?_, ?_, ?_⟩
  · cases hct : jsIncludes contentType "multipart/form-data"
    · exact Or.inr (by simp [POST, hct])
    · cases body with
      | formDataError message => exact Or.inl (by simp [POST, hct])
      | formData mf files =>
        cases mf with
        | notText => exact Or.inr (by simp [POST, hct])
        | invalidJson => exact Or.inr (by simp [POST, hct])
        | nonIterableJson message => exact Or.inl (by simp [POST, hct])
        | parsed messages =>
          cases apiKey with
          | none => exact Or.inl (by simp [POST, hct])
          | some key => cases upstream <;> exact Or.inl (by simp [POST, hct])
  · intro hnot
    cases hct : jsIncludes contentType "multipart/form-data"
    · exact absurd (Or.inl hct) hnot
    · cases body with
      | formDataError message => simp [POST, hct]
      | formData mf files =>
        cases mf with
        | notText => exact absurd (Or.inr (Or.inl ⟨files, rfl⟩)) hnot
        | invalidJson => exact absurd (Or.inr (Or.inr ⟨files, rfl⟩)) hnot
        | nonIterableJson message => simp [POST, hct]
        | parsed messages =>
          cases apiKey with
          | none => simp [POST, hct]
          | some key => cases upstream <;> simp [POST, hct]
  · intro message hct hbody
    cases hbody
    simp [POST, hct]

/-- Witness for C9: a multipart request whose body fails multipart parsing
still gets a 200 with the catch payload. -/
theorem C9_relay_totality_witness :
    POST none (UpstreamResult.ok { choices := none })
        { contentType := "multipart/form-data"
          body := BodyOutcome.formDataError "bad multipart body" }
      = { status := 200, reply := troubleReply "bad multipart body", sent := none }
    ∧ ((POST none (UpstreamResult.ok { choices := none })
        { contentType := "multipart/form-data"
          body := BodyOutcome.formDataError "bad multipart body" }).status = 200
      ∨ (POST none (UpstreamResult.ok { choices := none })
        { contentType := "multipart/form-data"
          body := BodyOutcome.formDataError "bad multipart body" }).status = 400) :=
  ⟨(C9_relay_totality none (UpstreamResult.ok { choices := none })
      { contentType := "multipart/form-data"
        body := BodyOutcome.formDataError "bad multipart body" }).2.2
      "bad multipart body" (by decide) rfl,
    (C9_relay_totality none (UpstreamResult.ok { choices := none })
      { contentType := "multipart/form-data"
        body := BodyOutcome.formDataError "bad multipart body" }).1⟩

/-- Helper: staging files never grows the tray past the cap. -/
theorem handleFileChange_length_le (gen : Nat → String) (files : List DraftFile)
    (prev : List AttachmentDraft) (h : prev.length ≤ MAX_ATTACHMENTS) :
    (handleFileChange gen files prev).length ≤ MAX_ATTACHMENTS := by
  simp only [handleFileChange]
  split
  · exact h
  · split
    · exact h
    · rename_i hslots
      rw [List.length_append, List.length_mapIdx]
      have h1 := List.length_take_le ((MAX_ATTACHMENTS : Int) - (prev.length : Int)).toNat files
      unfold MAX_ATTACHMENTS at *
      omega

/-- Helper: every tray reachable through the composer's staging operations
respects the cap. -/
theorem stagingReachable_length {tray : List AttachmentDraft} (h : StagingReachable tray) :
    tray.length ≤ MAX_ATTACHMENTS := by
  induction h with
  | init => exact Nat.zero_le _
  | stage gen files hprev ih => exact handleFileChange_length_le gen files _ ih
  | unstage id hprev ih => exact le_trans (List.length_filter_le _ _) ih
  | sent hprev ih => exact Nat.zero_le _

/-- C7: across every sequence of staging operations the tray holds at most
4 drafts; staging into a full tray is a no-op; a batch of 5 files stages
only the first 4; and a send from a reachable tray transmits at most 4
file parts and at most 4 converted attachments. -/
theorem C7_staging_cap :
    (∀ tray, StagingReachable tray → tray.length ≤ MAX_ATTACHMENTS)
    ∧ (∀ (gen : Nat → String) (files : List DraftFile) (prev : List AttachmentDraft),
        prev.length = MAX_ATTACHMENTS → handleFileChange gen files prev = prev)
    ∧ (∀ (gen : Nat → String) (f1 f2 f3 f4 f5 : DraftFile),
        handleFileChange gen [f1, f2, f3, f4, f5] []
          = [{ id := gen 0, file := f1 }, { id := gen 1, file := f2 },
             { id := gen 2, file := f3 }, { id := gen 3, file := f4 }])
    ∧ (∀ (genId : String) (now : Nat) (input : String) (tray : List AttachmentDraft)
          (messages : List ChatMessage) (action : SendAction),
        StagingReachable tray →
        handleSend genId now input tray messages = some action →
        action.formFiles.length ≤ MAX_ATTACHMENTS
        ∧ ∀ sentAttachments, action.userMessage.attachments = some sentAttachments →
            sentAttachments.length ≤ MAX_ATTACHMENTS) := by
  refine ⟨fun tray h => stagingReachable_length h, ?_, ?_, ?_⟩
  · intro gen files prev hp
    simp only [handleFileChange]
    split
    · rfl
    · split
      · rfl
      · rename_i hslots
        exfalso
        unfold MAX_ATTACHMENTS at hp hslots
        omega
  · intro gen f1 f2 f3 f4 f5
    rfl
  · intro genId now input tray messages action hreach hsend
    have hlen := stagingReachable_length hreach
    rw [handleSend] at hsend
    split at hsend
    · exact Option.noConfusion hsend
    · injection hsend with haction
      subst haction
      refine ⟨?_, ?_⟩
      · show (tray.map _).length ≤ MAX_ATTACHMENTS
        rw [List.length_map]
        exact hlen
      · intro sentAttachments hatt
        injection hatt with hatt
        subst hatt
        exact le_trans (List.length_filterMap_le convertDraft tray) hlen

/-- Witness for C7: staging 5 concrete files from an empty tray keeps 4,
a full tray rejects another file, and a send from a reachable tray
transmits within the cap. -/
theorem C7_staging_cap_witness :
    (handleFileChange (fun index => toString index)
        [{ name := "a", type := "text/plain", readable := true, dataUrl := "u1" },
         { name := "b", type := "text/plain", readable := true, dataUrl := "u2" },
         { name := "c", type := "text/plain", readable := true, dataUrl := "u3" },
         { name := "d", type := "text/plain", readable := true, dataUrl := "u4" },
         { name := "e", type := "text/plain", readable := true, dataUrl := "u5" }]
        []).length ≤ MAX_ATTACHMENTS
    ∧ handleFileChange (fun index => toString index)
        [{ name := "e", type := "text/plain", readable := true, dataUrl := "u5" }]
        [{ id := "0", file := { name := "a", type := "text/plain", readable := true, dataUrl := "u1" } },
         { id := "1", file := { name := "b", type := "text/plain", readable := true, dataUrl := "u2" } },
         { id := "2", file := { name := "c", type := "text/plain", readable := true, dataUrl := "u3" } },
         { id := "3", file := { name := "d", type := "text/plain", readable := true, dataUrl := "u4" } }]
      = [{ id := "0", file := { name := "a", type := "text/plain", readable := true, dataUrl := "u1" } },
         { id := "1", file := { name := "b", type := "text/plain", readable := true, dataUrl := "u2" } },
         { id := "2", file := { name := "c", type := "text/plain", readable := true, dataUrl := "u3" } },
         { id := "3", file := { name := "d", type := "text/plain", readable := true, dataUrl := "u4" } }]
    ∧ handleFileChange (fun index => toString index)
        [{ name := "a", type := "text/plain", readable := true, dataUrl := "u1" },
         { name := "b", type := "text/plain", readable := true, dataUrl := "u2" },
         { name := "c", type := "text/plain", readable := true, dataUrl := "u3" },
         { name := "d", type := "text/plain", readable := true, dataUrl := "u4" },
         { name := "e", type := "text/plain", readable := true, dataUrl := "u5" }]
        []
      = [{ id := "0", file := { name := "a", type := "text/plain", readable := true, dataUrl := "u1" } },
         { id := "1", file := { name := "b", type := "text/plain", readable := true, dataUrl := "u2" } },
         { id := "2", file := { name := "c", type := "text/plain", readable := true, dataUrl := "u3" } },
         { id := "3", file := { name := "d", type := "text/plain", readable := true, dataUrl := "u4" } }]
    ∧ (({ userMessage := { id := "m1", role := Role.user, content := "hi", createdAt := 0
                           attachments := some [] }
          nextConversation := [{ id := "m1", role := Role.user, content := "hi", createdAt := 0
                                 attachments := some [] }]
          formMessages := [{ role := Role.user, content := "hi", attachments := some [] }]
          formFiles := [] } : SendAction)).formFiles.length ≤ MAX_ATTACHMENTS := by
  refine ⟨?_, ?_, ?_, ?_⟩
  · exact C7_staging_cap.1 _
      (StagingReachable.stage (fun index => toString index)
        [{ name := "a", type := "text/plain", readable := true, dataUrl := "u1" },
         { name := "b", type := "text/plain", readable := true, dataUrl := "u2" },
         { name := "c", type := "text/plain", readable := true, dataUrl := "u3" },
         { name := "d", type := "text/plain", readable := true, dataUrl := "u4" },
         { name := "e", type := "text/plain", readable := true, dataUrl := "u5" }]
        StagingReachable.init)
  · exact C7_staging_cap.2.1 (fun index => toString index)
      [{ name := "e", type := "text/plain", readable := true, dataUrl := "u5" }]
      _ (by decide)
  · exact C7_staging_cap.2.2.1 (fun index => toString index) _ _ _ _ _
  · exact (C7_staging_cap.2.2.2 "m1" 0 "hi" [] []
      { userMessage := { id := "m1", role := Role.user, content := "hi", createdAt := 0
                         attachments := some [] }
        nextConversation := [{ id := "m1", role := Role.user, content := "hi", createdAt := 0
                               attachments := some [] }]
        formMessages := [{ role := Role.user, content := "hi", attachments := some [] }]
        formFiles := [] }
      StagingReachable.init rfl).1

/-- Helper: the settled conversions of a send are exactly the readable
drafts, converted, in order. -/
theorem filterMap_convertDraft (pending : List AttachmentDraft) :
    pending.filterMap convertDraft
      = (pending.filter (fun item => item.file.readable)).map
          (fun item =>
            ({ id := item.id
               name := item.file.name
               type := if item.file.type = "" then "application/octet-stream"
                 else item.file.type
               url := item.file.dataUrl } : PersistedAttachment)) := by
  induction pending with
  | nil => rfl
  | cons item rest ih =>
    cases hr : item.file.readable
    · simp [List.filterMap_cons, List.filter_cons, convertDraft, fileToDataUrl, hr, ih]
    · simp [List.filterMap_cons, List.filter_cons, convertDraft, fileToDataUrl, hr, ih]

/-- C8: a non-trivial send always proceeds — the user turn is appended to
the transcript, the outgoing user message carries exactly the attachments
whose conversion succeeded (unreadable files are silently dropped), and
every originally staged file still travels as a form part. -/
theorem C8_partial_conversion_failure (genId : String) (now : Nat) (input : String)
    (pendingAttachments : List AttachmentDraft) (messages : List ChatMessage)
    (h : ¬(jsTrim input = "" ∧ pendingAttachments.length = 0)) :
    handleSend genId now input pendingAttachments messages
      = some
        { userMessage :=
            { id := genId, role := Role.user, content := jsTrim input, createdAt := now
              attachments := some
                ((pendingAttachments.filter (fun item => item.file.readable)).map
                  (fun item =>
                    { id := item.id
                      name := item.file.name
                      type := if item.file.type = "" then "application/octet-stream"
                        else item.file.type
                      url := item.file.dataUrl })) }
          nextConversation := messages ++
            [{ id := genId, role := Role.user, content := jsTrim input, createdAt := now
               attachments := some
                 ((pendingAttachments.filter (fun item => item.file.readable)).map
                   (fun item =>
                     { id := item.id
                       name := item.file.name
                       type := if item.file.type = "" then "application/octet-stream"
                         else item.file.type
                       url := item.file.dataUrl })) }]
          formMessages := serializeMessagesForRequest (messages ++
            [{ id := genId, role := Role.user, content := jsTrim input, createdAt := now
               attachments := some
                 ((pendingAttachments.filter (fun item => item.file.readable)).map
                   (fun item =>
                     { id := item.id
                       name := item.file.name
                       type := if item.file.type = "" then "application/octet-stream"
                         else item.file.type
                       url := item.file.dataUrl })) }])
          formFiles := pendingAttachments.map (fun item => item.file) } := by
  simp only [handleSend, if_neg h, filterMap_convertDraft]

/-- Witness for C8: a send with one readable and one unreadable draft
proceeds, keeps the readable conversion, and drops the unreadable one. -/
theorem C8_partial_conversion_failure_witness :
    handleSend "m1" 7 " hi "
        [{ id := "id-a", file := { name := "a.txt", type := "text/plain", readable := true
                                   dataUrl := "data:text/plain;base64,QQ==" } },
         { id := "id-b", file := { name := "b.bin", type := "", readable := false
                                   dataUrl := "" } }]
        []
      = some
        { userMessage :=
            { id := "m1", role := Role.user, content := jsTrim " hi ", createdAt := 7
              attachments := some
                ((([{ id := "id-a", file := { name := "a.txt", type := "text/plain"
                                              readable := true
                                              dataUrl := "data:text/plain;base64,QQ==" } },
                     { id := "id-b", file := { name := "b.bin", type := "", readable := false
                                               dataUrl := "" } }] :
                    List AttachmentDraft).filter (fun item => item.file.readable)).map
                  (fun item =>
                    { id := item.id
                      name := item.file.name
                      type := if item.file.type = "" then "application/octet-stream"
                        else item.file.type
                      url := item.file.dataUrl })) }
          nextConversation :=
            [] ++ [{ id := "m1", role := Role.user, content := jsTrim " hi ", createdAt := 7
                     attachments := some
                       ((([{ id := "id-a", file := { name := "a.txt", type := "text/plain"
                                                     readable := true
                                                     dataUrl := "data:text/plain;base64,QQ==" } },
                            { id := "id-b", file := { name := "b.bin", type := ""
                                                      readable := false, dataUrl := "" } }] :
                           List AttachmentDraft).filter (fun item => item.file.readable)).map
                         (fun item =>
                           { id := item.id
                             name := item.file.name
                             type := if item.file.type = "" then "application/octet-stream"
                               else item.file.type
                             url := item.file.dataUrl })) }]
          formMessages := serializeMessagesForRequest
            ([] ++ [{ id := "m1", role := Role.user, content := jsTrim " hi ", createdAt := 7
                      attachments := some
                        ((([{ id := "id-a", file := { name := "a.txt", type := "text/plain"
                                                      readable := true
                                                      dataUrl := "data:text/plain;base64,QQ==" } },
                             { id := "id-b", file := { name := "b.bin", type := ""
                                                       readable := false, dataUrl := "" } }] :
                            List AttachmentDraft).filter (fun item => item.file.readable)).map
                          (fun item =>
                            { id := item.id
                              name := item.file.name
                              type := if item.file.type = "" then "application/octet-stream"
                                else item.file.type
                              url := item.file.dataUrl })) }])
          formFiles :=
            ([{ id := "id-a", file := { name := "a.txt", type := "text/plain", readable := true
                                        dataUrl := "data:text/plain;base64,QQ==" } },
              { id := "id-b", file := { name := "b.bin", type := "", readable := false
                                        dataUrl := "" } }] :
              List AttachmentDraft).map (fun item => item.file) } :=
  C8_partial_conversion_failure "m1" 7 " hi "
    [{ id := "id-a", file := { name := "a.txt", type := "text/plain", readable := true
                               dataUrl := "data:text/plain;base64,QQ==" } },
     { id := "id-b", file := { name := "b.bin", type := "", readable := false, dataUrl := "" } }]
    [] (by decide)

/-- C10: a non-OK relay response makes the composer discard the body and
append the fixed generic error bubble; in particular the explanatory reply
of the relay's own 400 responses is never surfaced. -/
theorem C10_transport_error_generic (status : Nat) (body : String) :
    assistantContent (TransportOutcome.notOk status body)
      = "I ran into an issue: Failed to reach Chatify. Please try again."
    ∧ (∀ (status2 : Nat) (body2 : String),
        assistantContent (TransportOutcome.notOk status body)
          = assistantContent (TransportOutcome.notOk status2 body2))
    ∧ (∀ (apiKey : Option String) (upstream : UpstreamResult) (request : RelayRequest),
        (POST apiKey upstream request).status = 400 →
        assistantContent
            (TransportOutcome.notOk (POST apiKey upstream request).status
              (POST apiKey upstream request).reply)
          = "I ran into an issue: Failed to reach Chatify. Please try again.") :=
  ⟨rfl, fun _ _ => rfl, fun _ _ _ _ => rfl⟩

/-- Witness for C10: the composer's bubble for the relay's own 400
rejection of a text/plain request is the fixed generic message. -/
theorem C10_transport_error_generic_witness :
    assistantContent
        (TransportOutcome.notOk
          (POST none (UpstreamResult.ok { choices := none })
            { contentType := "text/plain"
              body := BodyOutcome.formData (MessagesFieldOutcome.parsed []) [] }).status
          (POST none (UpstreamResult.ok { choices := none })
            { contentType := "text/plain"
              body := BodyOutcome.formData (MessagesFieldOutcome.parsed []) [] }).reply)
      = "I ran into an issue: Failed to reach Chatify. Please try again." :=
  (C10_transport_error_generic 0 "").2.2 none (UpstreamResult.ok { choices := none })
    { contentType := "text/plain"
      body := BodyOutcome.formData (MessagesFieldOutcome.parsed []) [] }
    (by decide)
